import Mathlib

/-!
Shallow embedding of the document-driven startup-analysis pipeline
(`agentic_startup_analyst.py`) and proofs about its specification claims.

Modelling conventions:
* Python floats and ints are modelled as exact rationals (`ℚ`).  All numeric
  literals appearing in the source (0.3, 25, 100, ...) are exactly
  representable, and none of the statements proved below sits on a
  binary-float rounding boundary.
* `None`-able Python values are `Option` values; Python truthiness
  (`if x:`) is modelled by the `truthy*` helpers (absent, `0`, `""` and `[]`
  are falsy).
* Results of external calls (the generative-text service, the filesystem,
  `json.loads`, the builtin `float` parser, the wall clock) are passed in as
  explicit parameters: an `Option String` per service call site, a
  `String → Option String` file reader, and so on.  The prompt strings sent
  to the service are not reconstructed, since no modelled behaviour depends
  on their content, only on the (parametrised) response.
* A `try/except` whose body can raise is modelled by an explicit
  `Option String` error parameter (`some msg` = the body raised `msg`);
  bodies that are total in the embedding carry no such parameter.
* `Python round(x, 1)` is modelled with Mathlib's `round` (half-up); it
  differs from Python's float rounding only at exact decimal ties, which do
  not occur in any statement below.
* Python `dict`s are association lists with distinct keys; `dict.get` is
  `List.lookup`.
-/

namespace StartupAnalyst

/-! ### String helpers (substring test, case mapping) -/

/-- List-of-chars version of `startswith`. -/
def chPre : List Char → List Char → Bool
  | [], _ => true
  | _ :: _, [] => false
  | a :: as, b :: bs => a == b && chPre as bs

/-- Does `hay` contain `needle` as a contiguous run (Python `in`)? -/
def chSub (needle : List Char) : List Char → Bool
  | [] => needle.isEmpty
  | h :: t => chPre needle (h :: t) || chSub needle t

/-- Python `needle in hay` on strings. -/
def strContains (hay needle : String) : Bool :=
  chSub needle.toList hay.toList

/-- Python `str.upper()`. -/
def strUpper (s : String) : String :=
  String.mk (s.toList.map Char.toUpper)

/-- Python `str.lower()`. -/
def strLower (s : String) : String :=
  String.mk (s.toList.map Char.toLower)

/-! ### Python truthiness -/

def truthyQ : Option ℚ → Bool
  | Option.none => false
  | some x => decide (x ≠ 0)

def truthyS : Option String → Bool
  | Option.none => false
  | some s => !s.isEmpty

def truthyL : Option (List String) → Bool
  | Option.none => false
  | some l => !l.isEmpty

/-- Python `opt_string or default` used as a string. -/
def orStr (o : Option String) (d : String) : String :=
  if truthyS o then o.getD "" else d

/-- Python `x in [..]` where `x` may be `None` (then the test is `False`). -/
def stageIn (st : Option String) (l : List String) : Bool :=
  match st with
  | Option.none => false
  | some s => l.contains s

/-! ### Python values (for heterogeneous dicts such as the report) -/

/-- A dynamic Python/JSON-style value. -/
inductive PyVal where
  | str : String → PyVal
  | num : ℚ → PyVal
  | bool : Bool → PyVal
  | null : PyVal
  | arr : List PyVal → PyVal
  | obj : List (String × PyVal) → PyVal
deriving Repr

def PyVal.isNum : PyVal → Bool
  | .num _ => true
  | _ => false

/-- Lookup in an object value (Python `d.get(k)`, `None` when absent). -/
def pvObjLookup (v : PyVal) (k : String) : Option PyVal :=
  match v with
  | .obj l => l.lookup k
  | _ => Option.none

/-- Python `d[k] = v` on an association list (replace or append). -/
def dictSet (d : List (String × PyVal)) (kv : String × PyVal) :
    List (String × PyVal) :=
  if (d.lookup kv.1).isSome then
    d.map (fun p => if p.1 == kv.1 then kv else p)
  else d ++ [kv]

/-- Python `d.update(new)`. -/
def dictUpdate (d new : List (String × PyVal)) : List (String × PyVal) :=
  new.foldl dictSet d

def optNum : Option ℚ → PyVal
  | Option.none => .null
  | some q => .num q

def optStrV : Option String → PyVal
  | Option.none => .null
  | some s => .str s

/-- Python `opt_list or []`, rendered as a value. -/
def strListV (o : Option (List String)) : PyVal :=
  .arr ((o.getD []).map .str)

/-! ### Number formatting (`safe_format_currency` / `safe_format_number`)

Python formats with `f"{v:,.0f}"`: round to an integer (half-even in
Python — modelled half-up, no tie occurs in the statements below) and
insert thousands separators. -/

/-- Insert a comma after every third char of a reversed digit list. -/
def chunk3 : List Char → List Char
  | a :: b :: c :: d :: rest => a :: b :: c :: ',' :: chunk3 (d :: rest)
  | l => l

def fmtCommas (n : ℤ) : String :=
  (if n < 0 then "-" else "") ++
    String.mk (chunk3 (toString n.natAbs).toList.reverse).reverse

/-- Python `f"{x:.1f}"`: one decimal digit, no thousands separator. -/
def fmtQ1 (q : ℚ) : String :=
  let n : ℤ := round (10 * q)
  (if n < 0 then "-" else "") ++
    toString (n.natAbs / 10) ++ "." ++ toString (n.natAbs % 10)

/-- `BaseAgent.safe_format_currency`. -/
def safe_format_currency : Option ℚ → String
  | Option.none => "Unknown"
  | some v => "$" ++ fmtCommas (round v)

/-- `BaseAgent.safe_format_number`. -/
def safe_format_number : Option ℚ → String
  | Option.none => "Unknown"
  | some v => fmtCommas (round v)

/-! ### Data model -/

/-- `ExtractedCompanyData` (the spec's CompanyRecord): every field optional.
Integer-valued fields (`customers`, `employees`) are also modelled as `ℚ`. -/
structure ExtractedCompanyData where
  company_name : Option String := Option.none
  sector : Option String := Option.none
  stage : Option String := Option.none
  location : Option String := Option.none
  founded_date : Option String := Option.none
  website : Option String := Option.none
  description : Option String := Option.none
  funding_request : Option ℚ := Option.none
  previous_funding : Option String := Option.none
  valuation : Option String := Option.none
  monthly_revenue : Option ℚ := Option.none
  annual_revenue : Option ℚ := Option.none
  burn_rate : Option ℚ := Option.none
  cash_balance : Option ℚ := Option.none
  gross_margin : Option ℚ := Option.none
  customers : Option ℚ := Option.none
  employees : Option ℚ := Option.none
  customer_acquisition_cost : Option ℚ := Option.none
  lifetime_value : Option ℚ := Option.none
  retention_rate : Option ℚ := Option.none
  growth_rate : Option ℚ := Option.none
  founders : Option (List String) := Option.none
  key_team : Option (List String) := Option.none
  advisors : Option (List String) := Option.none
  target_market : Option String := Option.none
  product_description : Option String := Option.none
  competitive_advantages : Option (List String) := Option.none
  partnerships : Option (List String) := Option.none
  regulatory_status : Option String := Option.none
  ip_portfolio : Option String := Option.none
  extraction_confidence : Option (List (String × ℚ)) := Option.none
deriving Repr

/-- The all-`None` record `ExtractedCompanyData()`. -/
def emptyRecord : ExtractedCompanyData := {}

/-- Presence (`is not None`) of each dataclass field except
`extraction_confidence`, in declaration order (30 fields), as iterated by
`asdict` in `_calculate_extraction_confidence` and
`_generate_data_extraction_summary`. -/
def fieldPresence (d : ExtractedCompanyData) : List Bool :=
  [d.company_name.isSome, d.sector.isSome, d.stage.isSome, d.location.isSome,
   d.founded_date.isSome, d.website.isSome, d.description.isSome,
   d.funding_request.isSome, d.previous_funding.isSome, d.valuation.isSome,
   d.monthly_revenue.isSome, d.annual_revenue.isSome, d.burn_rate.isSome,
   d.cash_balance.isSome, d.gross_margin.isSome, d.customers.isSome,
   d.employees.isSome, d.customer_acquisition_cost.isSome,
   d.lifetime_value.isSome, d.retention_rate.isSome, d.growth_rate.isSome,
   d.founders.isSome, d.key_team.isSome, d.advisors.isSome,
   d.target_market.isSome, d.product_description.isSome,
   d.competitive_advantages.isSome, d.partnerships.isSome,
   d.regulatory_status.isSome, d.ip_portfolio.isSome]

/-- `AgentResponse` (the spec's AnalysisUnitResult).  The `timestamp` field
is wall-clock output and carries no modelled information, so it is omitted. -/
structure AgentResponse where
  agent_name : String
  confidence_score : ℚ
  findings : List String
  analysis : List (String × PyVal)
  recommendations : List String
  flags : List String
  data_completeness : ℚ
deriving Repr

/-- Does a flag carry the given severity token (`tok in flag.upper()`)? -/
def flagHas (tok : String) (f : String) : Bool :=
  strContains (strUpper f) tok

/-! ### Shared bullet-line parser

All three analysis units post-process a service response the same way:
keep `- / • / *` lines whose remainder is longer than a unit-specific
minimum, as in `_generate_financial_insights` and friends. -/

def parse_bullet_lines (minLen : ℕ) (response : String) : List String :=
  (response.splitOn "\n").filterMap (fun raw =>
    let line := raw.trim
    if line.startsWith "-" || line.startsWith "•" || line.startsWith "*" then
      let insight := (line.drop 1).trim
      if insight.length > minLen then some insight else Option.none
    else Option.none)

/-! ### Financial analysis unit (`EnhancedFinancialAnalysisAgent`) -/

namespace Financial

/-- One conditional dict insertion (`if cond: metrics[k] = v`). -/
def condEntry (b : Bool) (k : String) (v : ℚ) : List (String × ℚ) :=
  if b then [(k, v)] else []

/-- `_calculate_available_metrics`.  The surrounding `try` never fires: the
body is total.  Sequential dict insertions with pairwise-distinct keys are
rendered as an append chain. -/
def calculate_available_metrics (d : ExtractedCompanyData) :
    List (String × ℚ) :=
  condEntry (truthyQ d.monthly_revenue) "monthly_revenue"
      (d.monthly_revenue.getD 0) ++
  condEntry (truthyQ d.monthly_revenue) "annual_run_rate"
      (d.monthly_revenue.getD 0 * 12) ++
  condEntry (truthyQ d.annual_revenue) "annual_revenue"
      (d.annual_revenue.getD 0) ++
  condEntry (truthyQ d.burn_rate) "burn_rate" (d.burn_rate.getD 0) ++
  condEntry (truthyQ d.cash_balance) "cash_balance"
      (d.cash_balance.getD 0) ++
  condEntry (truthyQ d.gross_margin) "gross_margin"
      (d.gross_margin.getD 0) ++
  condEntry (truthyQ d.cash_balance && truthyQ d.burn_rate &&
      decide (0 < d.burn_rate.getD 0)) "runway_months"
      (d.cash_balance.getD 0 / d.burn_rate.getD 0) ++
  condEntry (truthyQ d.customer_acquisition_cost &&
      truthyQ d.lifetime_value &&
      decide (0 < d.customer_acquisition_cost.getD 0)) "ltv_cac_ratio"
      (d.lifetime_value.getD 0 / d.customer_acquisition_cost.getD 0) ++
  condEntry (truthyQ d.customers) "customer_count" (d.customers.getD 0) ++
  condEntry (truthyQ d.employees) "employee_count" (d.employees.getD 0)

/-- `_generate_default_insights`. -/
def generate_default_insights (d : ExtractedCompanyData)
    (metrics : List (String × ℚ)) : List String :=
  let i1 : List String :=
    if truthyQ d.monthly_revenue && decide (0 < d.monthly_revenue.getD 0) then
      ["Company has established revenue stream of " ++
        safe_format_currency d.monthly_revenue ++ "/month"]
    else
      ["No revenue data found - may indicate pre-revenue stage"]
  let i2 := i1 ++
    (if truthyQ d.burn_rate then
      ["Monthly burn rate of " ++ safe_format_currency d.burn_rate ++
        " - assess sustainability"]
    else
      ["Burn rate not disclosed - financial sustainability cannot be assessed"])
  let runway := metrics.lookup "runway_months"
  let i3 := i2 ++
    (if truthyQ runway then
      (if 18 < runway.getD 0 then
        ["Strong financial position with " ++ fmtQ1 (runway.getD 0) ++
          " months runway"]
      else if 12 < runway.getD 0 then
        ["Adequate runway of " ++ fmtQ1 (runway.getD 0) ++ " months"]
      else
        ["SHORT RUNWAY WARNING: Only " ++ fmtQ1 (runway.getD 0) ++
          " months remaining"])
    else [])
  i3.take 6

/-- `_generate_financial_insights` (service response parametrised). -/
def generate_financial_insights (resp : Option String)
    (d : ExtractedCompanyData) (metrics : List (String × ℚ)) : List String :=
  match resp with
  | some r =>
    let insights := parse_bullet_lines 15 r
    if insights.isEmpty then generate_default_insights d metrics
    else insights.take 6
  | Option.none => generate_default_insights d metrics

/-- `_generate_financial_recommendations` (no service call inside). -/
def generate_financial_recommendations (d : ExtractedCompanyData)
    (metrics : List (String × ℚ)) : List String :=
  let runway := metrics.lookup "runway_months"
  let r1 : List String :=
    if truthyQ runway && decide (runway.getD 0 < 12) then
      ["URGENT: Begin fundraising immediately due to short runway"]
    else if truthyQ runway && decide (runway.getD 0 < 18) then
      ["Start fundraising process within next quarter"]
    else []
  let ltv_cac := metrics.lookup "ltv_cac_ratio"
  let r2 := r1 ++
    (if truthyQ ltv_cac && decide (ltv_cac.getD 0 < 3) then
      ["Focus on improving unit economics"]
    else [])
  let r3 := r2 ++
    (if !truthyQ d.customer_acquisition_cost || !truthyQ d.lifetime_value then
      ["Obtain detailed unit economics data (CAC, LTV)"]
    else [])
  let r4 := if r3.isEmpty then ["Continue tracking key financial metrics"]
    else r3
  r4.take 4

/-- `_detect_financial_flags`. -/
def detect_financial_flags (_d : ExtractedCompanyData)
    (metrics : List (String × ℚ)) : List String :=
  let runway := metrics.lookup "runway_months"
  let f1 : List String :=
    if truthyQ runway && decide (runway.getD 0 < 6) then
      ["CRITICAL: Less than 6 months runway"]
    else if truthyQ runway && decide (runway.getD 0 < 12) then
      ["HIGH: Limited runway - funding needed soon"]
    else []
  let ltv_cac := metrics.lookup "ltv_cac_ratio"
  let f2 := f1 ++
    (if truthyQ ltv_cac && decide (ltv_cac.getD 0 < 1) then
      ["CRITICAL: Negative unit economics"]
    else [])
  f2.take 5

/-- `_calculate_financial_completeness`: fraction (out of 8 key fields)
that are `not None`. -/
def calculate_financial_completeness (d : ExtractedCompanyData) : ℚ :=
  (([d.monthly_revenue.isSome, d.burn_rate.isSome, d.cash_balance.isSome,
     d.customer_acquisition_cost.isSome, d.lifetime_value.isSome,
     d.customers.isSome, d.employees.isSome,
     d.gross_margin.isSome].countP id : ℕ) : ℚ) / 8

/-- `_calculate_financial_confidence`. -/
def calculate_financial_confidence (d : ExtractedCompanyData)
    (metrics : List (String × ℚ)) : ℚ :=
  min ((1 / 2 : ℚ) +
    (if truthyQ d.monthly_revenue then 3 / 20 else 0) +
    (if truthyQ d.burn_rate then 3 / 20 else 0) +
    (if 3 < metrics.length then 1 / 10 else 0)) (19 / 20)

/-- `_create_error_response`. -/
def create_error_response (msg : String) : AgentResponse :=
  { agent_name := "Financial Analysis Agent"
    confidence_score := 1 / 5
    findings := ["Financial analysis failed: " ++ msg]
    analysis := []
    recommendations := ["Provide complete financial data for analysis"]
    flags := ["CRITICAL: Financial analysis error - " ++ msg]
    data_completeness := 0 }

/-- `analyze_extracted_data`, the unit's `process` operation.  `err` models
whether (and with what message) the `try` body raised; `insResp` is the
generative-service response for the insights call. -/
def analyze_extracted_data (err : Option String) (insResp : Option String)
    (d : ExtractedCompanyData) : AgentResponse :=
  match err with
  | some e => create_error_response e
  | Option.none =>
    let metrics := calculate_available_metrics d
    { agent_name := "Financial Analysis Agent"
      confidence_score := calculate_financial_confidence d metrics
      findings := generate_financial_insights insResp d metrics
      analysis := metrics.map (fun p => (p.1, PyVal.num p.2))
      recommendations := generate_financial_recommendations d metrics
      flags := detect_financial_flags d metrics
      data_completeness := calculate_financial_completeness d }

end Financial

/-! ### Risk assessment unit (`EnhancedRiskAssessmentAgent`) -/

namespace Risk

/-- `dict.get(k, default)` on the numeric risk map. -/
def riskGet (m : List (String × ℚ)) (k : String) (dflt : ℚ) : ℚ :=
  (m.lookup k).getD dflt

/-- `_assess_financial_risk`. -/
def assess_financial_risk (d : ExtractedCompanyData) : ℚ :=
  if !truthyQ d.burn_rate && !truthyQ d.cash_balance &&
      !truthyQ d.monthly_revenue then 75
  else
    let r1 : ℚ := 30 +
      (if truthyQ d.burn_rate && truthyQ d.cash_balance &&
          decide (0 < d.burn_rate.getD 0) then
        (let runway := d.cash_balance.getD 0 / d.burn_rate.getD 0
         if runway < 3 then 30 else if runway < 6 then 20
         else if runway < 12 then 10 else 0)
      else 0)
    let r2 := r1 +
      (if !truthyQ d.monthly_revenue then
        (if truthyS d.stage &&
            stageIn d.stage ["Series A", "Series B", "Series C"] then 20
        else 10)
      else 0)
    min r2 100

/-- `_assess_market_risk`. -/
def assess_market_risk (d : ExtractedCompanyData) : ℚ :=
  let r1 : ℚ := 40 +
    (if truthyS d.sector then
      (if ["crypto", "web3", "gaming"].any
          (fun t => strContains (strLower (d.sector.getD "")) t) then 20
      else 0)
    else 15)
  let r2 := r1 +
    (if truthyQ d.customers then
      (if d.customers.getD 0 < 5 then 25
       else if d.customers.getD 0 < 20 then 15 else 0)
    else 20)
  min r2 100

/-- `_assess_team_risk`. -/
def assess_team_risk (d : ExtractedCompanyData) : ℚ :=
  let r1 : ℚ := 35 +
    (if !truthyL d.founders && !truthyL d.key_team then 20 else 0)
  let r2 := r1 +
    (if truthyQ d.employees && truthyS d.stage then
      (if stageIn d.stage ["Series A", "Series B"] &&
          decide (d.employees.getD 0 < 10) then 15
      else 0)
    else 0)
  min r2 100

/-- `_analyze_risks_with_available_data`.  All four stored values are
numeric, so `overall_risk_score` is the mean of the three category scores;
the body is total, so the inner `except` branch is dead. -/
def analyze_risks_with_available_data (d : ExtractedCompanyData) :
    List (String × ℚ) :=
  let fr := assess_financial_risk d
  let mr := assess_market_risk d
  let tr := assess_team_risk d
  [("financial_risk", fr), ("market_risk", mr), ("team_risk", tr),
   ("overall_risk_score", (fr + mr + tr) / 3)]

/-- `_generate_default_risk_insights`. -/
def generate_default_risk_insights (_d : ExtractedCompanyData)
    (ra : List (String × ℚ)) : List String :=
  let overall := riskGet ra "overall_risk_score" 50
  let i1 : List String :=
    if 70 < overall then
      ["HIGH OVERALL RISK: Multiple risk factors require immediate attention"]
    else if 50 < overall then
      ["MODERATE RISK: Several areas need monitoring"]
    else
      ["MANAGEABLE RISK: Risk profile within acceptable bounds"]
  let i2 := i1 ++
    (if 60 < riskGet ra "financial_risk" 50 then
      ["Financial sustainability risk due to limited runway or missing data"]
    else [])
  let i3 := i2 ++
    (if 60 < riskGet ra "market_risk" 50 then
      ["Market risk elevated due to sector dynamics or customer concentration"]
    else [])
  i3.take 6

/-- `_generate_risk_insights` (service response parametrised). -/
def generate_risk_insights (resp : Option String)
    (d : ExtractedCompanyData) (ra : List (String × ℚ)) : List String :=
  match resp with
  | some r =>
    let insights := parse_bullet_lines 15 r
    if insights.isEmpty then generate_default_risk_insights d ra
    else insights.take 6
  | Option.none => generate_default_risk_insights d ra

/-- `_generate_risk_mitigation_strategies`. -/
def generate_risk_mitigation_strategies (_d : ExtractedCompanyData)
    (ra : List (String × ℚ)) : List String :=
  let s1 : List String :=
    if 60 < riskGet ra "financial_risk" 0 then
      ["Implement strict financial controls and cash flow monitoring"]
    else []
  let s2 := s1 ++
    (if 60 < riskGet ra "market_risk" 0 then
      ["Diversify customer base and develop strategic partnerships"]
    else [])
  let s3 :=
    if s2.isEmpty then
      ["Establish regular risk monitoring processes",
       "Build advisory board for strategic guidance"]
    else s2
  s3.take 4

/-- `_detect_critical_risk_flags`. -/
def detect_critical_risk_flags (d : ExtractedCompanyData)
    (ra : List (String × ℚ)) : List String :=
  let f1 : List String :=
    if truthyQ d.burn_rate && truthyQ d.cash_balance &&
        decide (0 < d.burn_rate.getD 0) &&
        decide (d.cash_balance.getD 0 / d.burn_rate.getD 0 < 3) then
      ["CRITICAL: Less than 3 months runway"]
    else []
  let f2 := f1 ++
    (if stageIn d.stage ["Series A", "Series B"] &&
        !truthyQ d.monthly_revenue then
      ["HIGH: No revenue disclosed at advanced stage"]
    else [])
  let f3 := f2 ++
    (if 80 < riskGet ra "overall_risk_score" 50 then
      ["HIGH: Overall risk above investment threshold"]
    else [])
  f3.take 4

/-- `_calculate_risk_data_completeness`. -/
def calculate_risk_data_completeness (d : ExtractedCompanyData) : ℚ :=
  (([d.monthly_revenue.isSome, d.burn_rate.isSome, d.cash_balance.isSome,
     d.customers.isSome, d.employees.isSome, d.founders.isSome,
     d.stage.isSome, d.sector.isSome].countP id : ℕ) : ℚ) / 8

/-- `_calculate_risk_confidence`. -/
def calculate_risk_confidence (d : ExtractedCompanyData) : ℚ :=
  min ((3 / 5 : ℚ) + calculate_risk_data_completeness d * (3 / 10)) (23 / 25)

/-- `_create_error_response`. -/
def create_error_response (msg : String) : AgentResponse :=
  { agent_name := "Risk Assessment Agent"
    confidence_score := 3 / 10
    findings := ["Risk assessment failed: " ++ msg]
    analysis := [("error_risk", PyVal.num 100)]
    recommendations := ["Retry risk assessment with complete data"]
    flags := ["CRITICAL: Risk assessment error - " ++ msg]
    data_completeness := 0 }

/-- `assess_risks_from_extracted_data`, the unit's `process` operation. -/
def assess_risks_from_extracted_data (err : Option String)
    (insResp : Option String) (d : ExtractedCompanyData) : AgentResponse :=
  match err with
  | some e => create_error_response e
  | Option.none =>
    let ra := analyze_risks_with_available_data d
    { agent_name := "Risk Assessment Agent"
      confidence_score := calculate_risk_confidence d
      findings := generate_risk_insights insResp d ra
      analysis := ra.map (fun p => (p.1, PyVal.num p.2))
      recommendations := generate_risk_mitigation_strategies d ra
      flags := detect_critical_risk_flags d ra
      data_completeness := calculate_risk_data_completeness d }

end Risk

/-! ### Market intelligence unit (`EnhancedMarketIntelligenceAgent`) -/

namespace Market

/-- `_generate_default_market_insights`. -/
def generate_default_market_insights (d : ExtractedCompanyData) :
    List String :=
  let i1 : List String :=
    if truthyS d.sector then
      ["Operating in the " ++ d.sector.getD "" ++ " sector"]
    else []
  let i2 := i1 ++
    (if truthyQ d.customers then
      (if d.customers.getD 0 < 10 then ["Early customer acquisition phase"]
       else if d.customers.getD 0 < 50 then
        ["Growing customer base indicates market reception"]
       else
        ["Established customer base suggests product-market fit"])
    else [])
  i2.take 6

/-- `_generate_market_insights` (service response parametrised). -/
def generate_market_insights (resp : Option String)
    (d : ExtractedCompanyData) : List String :=
  match resp with
  | some r =>
    let insights := parse_bullet_lines 20 r
    if insights.isEmpty then generate_default_market_insights d
    else insights.take 6
  | Option.none => generate_default_market_insights d

/-- `_analyze_market_position`. -/
def analyze_market_position (d : ExtractedCompanyData) :
    List (String × PyVal) :=
  [("competitive_advantages_count",
    PyVal.num (if truthyL d.competitive_advantages then
      ((d.competitive_advantages.getD []).length : ℚ) else 0))] ++
  (if truthyQ d.customers then
    [("market_maturity",
      PyVal.str (if d.customers.getD 0 < 10 then "Early Stage"
        else if d.customers.getD 0 < 100 then "Growth Stage"
        else "Scale Stage"))]
  else [])

/-- `_generate_market_recommendations`. -/
def generate_market_recommendations (d : ExtractedCompanyData) :
    List String :=
  let r1 : List String :=
    if !truthyQ d.customers || decide (d.customers.getD 0 < 20) then
      ["Focus on customer acquisition and market validation"]
    else []
  let r2 := r1 ++
    (if !truthyL d.competitive_advantages then
      ["Clearly define competitive differentiation"]
    else [])
  let r3 :=
    if r2.isEmpty then
      ["Strengthen market positioning through customer feedback"]
    else r2
  r3.take 4

/-- `_detect_market_flags`. -/
def detect_market_flags (d : ExtractedCompanyData) : List String :=
  let f1 : List String :=
    if truthyQ d.customers && decide (d.customers.getD 0 < 5) &&
        stageIn d.stage ["Series A", "Series B"] then
      ["HIGH: Very small customer base for funding stage"]
    else []
  let f2 := f1 ++
    (if !truthyS d.sector || !truthyS d.target_market then
      ["MEDIUM: Market definition lacks clarity"]
    else [])
  f2.take 3

/-- `_calculate_market_data_completeness`. -/
def calculate_market_data_completeness (d : ExtractedCompanyData) : ℚ :=
  (([d.sector.isSome, d.target_market.isSome, d.product_description.isSome,
     d.customers.isSome,
     d.competitive_advantages.isSome].countP id : ℕ) : ℚ) / 5

/-- `_calculate_market_confidence`. -/
def calculate_market_confidence (d : ExtractedCompanyData)
    (insights : List String) : ℚ :=
  min ((13 / 20 : ℚ) +
    (if truthyS d.sector && truthyS d.target_market then 1 / 10 else 0) +
    (if truthyQ d.customers then 1 / 10 else 0) +
    (if 4 < insights.length then 1 / 20 else 0)) (9 / 10)

/-- `_create_error_response`.  Note: the flag's severity token is `HIGH`,
unlike the financial and risk units which use `CRITICAL`. -/
def create_error_response (msg : String) : AgentResponse :=
  { agent_name := "Market Intelligence Agent"
    confidence_score := 1 / 5
    findings := ["Market analysis failed: " ++ msg]
    analysis := []
    recommendations := ["Retry market analysis"]
    flags := ["HIGH: Market analysis error - " ++ msg]
    data_completeness := 0 }

/-- `analyze_market_from_extracted_data`, the unit's `process` operation. -/
def analyze_market_from_extracted_data (err : Option String)
    (insResp : Option String) (d : ExtractedCompanyData) : AgentResponse :=
  match err with
  | some e => create_error_response e
  | Option.none =>
    let insights := generate_market_insights insResp d
    { agent_name := "Market Intelligence Agent"
      confidence_score := calculate_market_confidence d insights
      findings := insights
      analysis := analyze_market_position d
      recommendations := generate_market_recommendations d
      flags := detect_market_flags d
      data_completeness := calculate_market_data_completeness d }

end Market

/-! ### Report generation / synthesis (`BusinessReportGenerationAgent`) -/

namespace Report

/-- Parsed executive summary (the three `sections` keys). -/
structure ExecSummary where
  key_highlights : List String
  critical_concerns : List String
  investment_rationale : String
deriving Repr

/-- Which section the line-parser is currently collecting. -/
inductive Sect where
  | kh | cc | ir
deriving Repr, DecidableEq

/-- Parser state for `_parse_executive_summary_response`. -/
structure PState where
  cs : Option Sect
  content : List String
  kh : List String
  cc : List String
deriving Repr

/-- One loop iteration of `_parse_executive_summary_response`. -/
def stepLine (st : PState) (raw : String) : PState :=
  let line := raw.trim
  let low := strLower line
  if strContains low "key highlights" || strContains low "highlights" then
    { st with cs := some .kh }
  else if strContains low "critical concerns" || strContains low "concerns" then
    { st with cs := some .cc }
  else if strContains low "investment rationale" ||
      strContains low "rationale" then
    { st with cs := some .ir }
  else if line.startsWith "-" || line.startsWith "•" ||
      line.startsWith "*" then
    let c := (line.drop 1).trim
    if 10 < c.length then
      match st.cs with
      | some .kh => { st with kh := st.kh ++ [c] }
      | some .cc => { st with cc := st.cc ++ [c] }
      | _ => st
    else st
  else
    match st.cs with
    | some .ir =>
      if 20 < line.length then { st with content := st.content ++ [line] }
      else st
    | _ => st

/-- `_parse_executive_summary_response`. -/
def parse_executive_summary_response (response : String) : ExecSummary :=
  let st := (response.splitOn "\n").foldl stepLine
    { cs := Option.none, content := [], kh := [], cc := [] }
  { key_highlights := st.kh
    critical_concerns := st.cc
    investment_rationale :=
      if !st.content.isEmpty && st.cs == some .ir then
        " ".intercalate st.content
      else "" }

/-- `_generate_executive_summary` (service response parametrised; the
findings/flags collected from the unit results feed only the prompt). -/
def generate_executive_summary (resp : Option String)
    (d : ExtractedCompanyData) : ExecSummary :=
  match resp with
  | some r => parse_executive_summary_response r
  | Option.none =>
    { key_highlights :=
        ["Company operates in " ++ orStr d.sector "technology" ++ " sector",
         "AI analysis identifies opportunities for evaluation"]
      critical_concerns := ["Comprehensive due diligence required"]
      investment_rationale :=
        "Investment opportunity requires further evaluation." }

/-- All flags of all unit results, in order. -/
def all_flags (rs : List AgentResponse) : List String :=
  (rs.map (fun r => r.flags)).flatten

/-- Number of flags whose upper-cased text contains `tok`. -/
def count_flags (rs : List AgentResponse) (tok : String) : ℕ :=
  (all_flags rs).countP (fun f => flagHas tok f)

/-- `avg_confidence` as computed in `_generate_investment_recommendation`. -/
def avg_confidence (rs : List AgentResponse) : ℚ :=
  if rs.isEmpty then 1 / 2
  else (rs.map (fun r => r.confidence_score)).sum / (rs.length : ℚ)

/-- The rule-based fallback branch of `_generate_investment_recommendation`. -/
def fallback_recommendation (rs : List AgentResponse) : String :=
  if 0 < count_flags rs "CRITICAL" then
    "DO NOT RECOMMEND: Critical risk factors pose significant threats to investment success."
  else if 3 < count_flags rs "HIGH" then
    "CONSIDER WITH CAUTION: Multiple high-priority risks require comprehensive due diligence."
  else if 7 / 10 < avg_confidence rs then
    "RECOMMEND: Analysis indicates positive investment opportunity with manageable risks."
  else
    "CONSIDER WITH CAUTION: Additional evaluation needed before investment decision."

/-- `_generate_investment_recommendation`: the service's text verbatim
(stripped) when it answers, otherwise the rule-based fallback. -/
def generate_investment_recommendation (resp : Option String)
    (rs : List AgentResponse) : String :=
  match resp with
  | some r => r.trim
  | Option.none => fallback_recommendation rs

/-- The fixed per-agent-name weight table (default weight 0.15). -/
def agent_weights (name : String) : ℚ :=
  if name = "Financial Analysis Agent" then 3 / 10
  else if name = "Risk Assessment Agent" then 1 / 4
  else if name = "Market Intelligence Agent" then 1 / 4
  else if name = "Document Extraction Agent" then 1 / 5
  else 3 / 20

/-- Python `round(x, 1)` (ties cannot occur in the facts proved below). -/
def round1 (x : ℚ) : ℚ := ((round (10 * x) : ℤ) : ℚ) / 10

/-- One response's clamped score contribution. -/
def agent_score (r : AgentResponse) : ℚ :=
  max (r.confidence_score * 100 -
    ((r.flags.countP (fun f => flagHas "CRITICAL" f) : ℚ) * 25 +
     (r.flags.countP (fun f => flagHas "HIGH" f) : ℚ) * 10)) 0

/-- Loop body of `_calculate_overall_investment_score`:
accumulates (weighted score sum, total weight). -/
def score_step (acc : ℚ × ℚ) (r : AgentResponse) : ℚ × ℚ :=
  (acc.1 + agent_score r * agent_weights r.agent_name,
   acc.2 + agent_weights r.agent_name)

/-- `_calculate_overall_investment_score`. -/
def calculate_overall_investment_score (rs : List AgentResponse) : ℚ :=
  if rs.isEmpty then 50
  else
    let acc := rs.foldl score_step (0, 0)
    let final := if 0 < acc.2 then acc.1 / acc.2 else 50
    round1 (min (max final 0) 100)

/-- `next((r for r in responses if tok in r.agent_name), None)`. -/
def find_response (tok : String) (rs : List AgentResponse) :
    Option AgentResponse :=
  rs.find? (fun r => strContains r.agent_name tok)

/-- `_generate_company_overview_section`. -/
def company_overview (d : ExtractedCompanyData) : PyVal :=
  .obj [
    ("basic_information", .obj [
      ("company_name", .str (orStr d.company_name "Not specified")),
      ("sector", .str (orStr d.sector "Not specified")),
      ("stage", .str (orStr d.stage "Not specified")),
      ("location", .str (orStr d.location "Not specified")),
      ("founded_date", .str (orStr d.founded_date "Not specified")),
      ("website", .str (orStr d.website "Not specified"))]),
    ("business_description",
      .str (orStr d.description "Business description not available")),
    ("product_and_market", .obj [
      ("product_description",
        .str (orStr d.product_description "Product details not specified")),
      ("target_market",
        .str (orStr d.target_market "Target market not defined")),
      ("competitive_advantages", strListV d.competitive_advantages)]),
    ("team_information", .obj [
      ("founders", strListV d.founders),
      ("key_team", strListV d.key_team),
      ("total_employees", optNum d.employees)]),
    ("funding_information", .obj [
      ("current_funding_request", optNum d.funding_request),
      ("previous_funding", optStrV d.previous_funding)])]

/-- `financial_analysis_summary` entry: the matched unit's findings, or the
placeholder list when the financial unit is missing. -/
def fin_summary_entry (rs : List AgentResponse) : PyVal :=
  match find_response "Financial" rs with
  | some r => .arr (r.findings.map .str)
  | Option.none => .arr [.str "Financial analysis not available"]

/-- A metric read out of the matched unit's analysis map
(`resp.analysis.get(k) if resp else None`). -/
def response_metric (o : Option AgentResponse) (k : String) : PyVal :=
  match o with
  | some r => (r.analysis.lookup k).getD .null
  | Option.none => .null

/-- `_generate_financial_analysis_section`. -/
def financial_analysis_section (d : ExtractedCompanyData)
    (rs : List AgentResponse) : PyVal :=
  let fr := find_response "Financial" rs
  .obj [
    ("revenue_metrics", .obj [
      ("monthly_revenue", optNum d.monthly_revenue),
      ("annual_revenue", optNum d.annual_revenue),
      ("growth_rate", optNum d.growth_rate),
      ("gross_margin", optNum d.gross_margin)]),
    ("cost_and_burn_analysis", .obj [
      ("monthly_burn_rate", optNum d.burn_rate),
      ("cash_balance", optNum d.cash_balance),
      ("runway_months", response_metric fr "runway_months")]),
    ("unit_economics", .obj [
      ("customer_acquisition_cost", optNum d.customer_acquisition_cost),
      ("lifetime_value", optNum d.lifetime_value),
      ("ltv_cac_ratio", response_metric fr "ltv_cac_ratio")]),
    ("business_metrics", .obj [
      ("customer_count", optNum d.customers),
      ("employee_count", optNum d.employees),
      ("retention_rate", optNum d.retention_rate)]),
    ("financial_analysis_summary", fin_summary_entry rs),
    ("financial_recommendations",
      match fr with
      | some r => .arr (r.recommendations.map .str)
      | Option.none => .arr []),
    ("financial_flags",
      match fr with
      | some r => .arr (r.flags.map .str)
      | Option.none => .arr [])]

/-- `market_analysis_insights` entry, with its missing-unit placeholder. -/
def market_insights_entry (rs : List AgentResponse) : PyVal :=
  match find_response "Market" rs with
  | some r => .arr (r.findings.map .str)
  | Option.none => .arr [.str "Market analysis not available"]

/-- `_generate_market_analysis_section`. -/
def market_analysis_section (d : ExtractedCompanyData)
    (rs : List AgentResponse) : PyVal :=
  let mr := find_response "Market" rs
  .obj [
    ("market_overview", .obj [
      ("sector", optStrV d.sector),
      ("target_market", optStrV d.target_market),
      ("geographic_focus", optStrV d.location)]),
    ("competitive_analysis", .obj [
      ("competitive_advantages", strListV d.competitive_advantages),
      ("market_position",
        match mr with
        | some r => (r.analysis.lookup "market_maturity").getD .null
        | Option.none => .str "Unknown")]),
    ("go_to_market_strategy", .obj [
      ("current_customers", optNum d.customers)]),
    ("market_analysis_insights", market_insights_entry rs),
    ("market_recommendations",
      match mr with
      | some r => .arr (r.recommendations.map .str)
      | Option.none => .arr []),
    ("market_concerns",
      match mr with
      | some r => .arr (r.flags.map .str)
      | Option.none => .arr [])]

/-- `risk_assessment_summary` entry, with its missing-unit placeholder. -/
def risk_summary_entry (rs : List AgentResponse) : PyVal :=
  match find_response "Risk" rs with
  | some r => .arr (r.findings.map .str)
  | Option.none => .arr [.str "Risk analysis not available"]

/-- A risk category value (`resp.analysis.get(k) if resp else 'Unknown'`). -/
def risk_category (o : Option AgentResponse) (k : String) : PyVal :=
  match o with
  | some r => (r.analysis.lookup k).getD .null
  | Option.none => .str "Unknown"

/-- `_generate_risk_analysis_section`. -/
def risk_analysis_section (_d : ExtractedCompanyData)
    (rs : List AgentResponse) : PyVal :=
  let rr := find_response "Risk" rs
  .obj [
    ("risk_categories", .obj [
      ("financial_risk", risk_category rr "financial_risk"),
      ("market_risk", risk_category rr "market_risk"),
      ("team_risk", risk_category rr "team_risk"),
      ("overall_risk_score", risk_category rr "overall_risk_score")]),
    ("risk_assessment_summary", risk_summary_entry rs),
    ("mitigation_strategies",
      match rr with
      | some r => .arr (r.recommendations.map .str)
      | Option.none => .arr []),
    ("critical_risk_flags",
      match rr with
      | some r => .arr (r.flags.map .str)
      | Option.none => .arr [])]

/-- `_extract_key_metrics`. -/
def extract_key_metrics (d : ExtractedCompanyData)
    (rs : List AgentResponse) : List (String × PyVal) :=
  let m1 :=
    (if truthyQ d.monthly_revenue then
      [("monthly_revenue", PyVal.num (d.monthly_revenue.getD 0)),
       ("annual_run_rate", PyVal.num (d.monthly_revenue.getD 0 * 12))]
    else []) ++
    (if truthyQ d.customers then
      [("customer_count", PyVal.num (d.customers.getD 0))] else []) ++
    (if truthyQ d.employees then
      [("employee_count", PyVal.num (d.employees.getD 0))] else [])
  match find_response "Financial" rs with
  | some fr => dictUpdate m1 (fr.analysis.filter (fun p => p.2.isNum))
  | Option.none => m1

/-- `_generate_next_steps_and_due_diligence` (a constant structure). -/
def next_steps : PyVal :=
  .obj [
    ("immediate_next_steps", .arr [
      .str "Schedule management presentation",
      .str "Request detailed financial projections",
      .str "Conduct customer reference calls",
      .str "Review legal documentation"]),
    ("due_diligence_priorities", .arr [
      .str "Financial model validation",
      .str "Market validation and competitive analysis",
      .str "Team background verification",
      .str "Product demonstration and technical review"]),
    ("additional_information_requests", .arr [
      .str "Monthly financial statements",
      .str "Customer reference contacts",
      .str "Market research data",
      .str "Technical documentation"]),
    ("suggested_timeline", .str "4-6 weeks for comprehensive due diligence")]

/-- `_generate_data_extraction_summary`. -/
def generate_data_extraction_summary (d : ExtractedCompanyData) : PyVal :=
  let present := fieldPresence d
  let ex : ℕ := present.countP id
  let mis : ℕ := present.length - ex
  .obj [
    ("total_data_points", .num ((ex + mis : ℕ) : ℚ)),
    ("successfully_extracted", .num (ex : ℚ)),
    ("missing_data_points", .num (mis : ℚ)),
    ("extraction_rate", .num ((ex : ℚ) / ((ex + mis : ℕ) : ℚ))),
    ("extraction_confidence",
      .obj ((d.extraction_confidence.getD []).map
        (fun p => (p.1, PyVal.num p.2))))]

/-- `generate_comprehensive_report`.  The try body is total for every
modelled input, so the error-report branch is dead; the two service
responses (executive summary, recommendation) are parametrised, and
`analysis_date` is the wall-clock string `now`. -/
def generate_comprehensive_report (execResp recResp : Option String)
    (now : String) (d : ExtractedCompanyData) (rs : List AgentResponse) :
    PyVal :=
  let es := generate_executive_summary execResp d
  .obj [
    ("report_metadata", .obj [
      ("company_name", optStrV d.company_name),
      ("analysis_date", .str now),
      ("report_type", .str "Comprehensive Investment Analysis"),
      ("analyst_platform",
        .str "AI Startup Analyst Platform (Gemini-Powered)"),
      ("data_sources", .str "Document Analysis + AI Intelligence")]),
    ("executive_summary", .obj [
      ("overall_score", .num (calculate_overall_investment_score rs)),
      ("investment_recommendation",
        .str (generate_investment_recommendation recResp rs)),
      ("key_highlights", .arr (es.key_highlights.map .str)),
      ("critical_concerns", .arr (es.critical_concerns.map .str)),
      ("investment_rationale", .str es.investment_rationale)]),
    ("company_overview", company_overview d),
    ("detailed_analysis", .obj [
      ("financial_analysis", financial_analysis_section d rs),
      ("market_analysis", market_analysis_section d rs),
      ("risk_analysis", risk_analysis_section d rs)]),
    ("key_metrics_summary", .obj (extract_key_metrics d rs)),
    ("next_steps_and_due_diligence", next_steps),
    ("appendix", .obj [
      ("data_extraction_summary", generate_data_extraction_summary d),
      ("agent_confidence_scores",
        .obj (rs.map (fun r => (r.agent_name, PyVal.num r.confidence_score))))])]

/-- The top-level keys of an object value. -/
def topKeys (v : PyVal) : List String :=
  match v with
  | .obj l => l.map (fun p => p.1)
  | _ => []

/-- The documented top-level report keys. -/
def documented_report_keys : List String :=
  ["report_metadata", "executive_summary", "company_overview",
   "detailed_analysis", "key_metrics_summary",
   "next_steps_and_due_diligence", "appendix"]

end Report

/-! ### Structured extraction decoder (`DocumentExtractionAgent`)

External primitives are parameters: `pyfloat` is the Python builtin
`float(str)` parser (`none` = `ValueError`), `jloads` is `json.loads`
(`none` = decode exception), `readDoc` is the filesystem/text-extraction
collaborator (`none` = file missing or unreadable). -/

namespace Extraction

/-- JSON values as returned by `json.loads`. -/
inductive Jv where
  | jnull : Jv
  | jnum : ℚ → Jv
  | jstr : String → Jv
  | jbool : Bool → Jv
  | jarr : List Jv → Jv
  | jobj : List (String × Jv) → Jv
deriving Repr

/-- The greedy regex `r'\x7b[\s\S]*\x7d'`: from the first opening brace to
the last closing brace, `none` when there is no such span. -/
def braceSpan (s : String) : Option String :=
  let rest := s.toList.dropWhile (fun c => c != '\x7b')
  match rest with
  | [] => Option.none
  | _ =>
    let rev := rest.reverse.dropWhile (fun c => c != '\x7d')
    match rev with
    | [] => Option.none
    | _ => some (String.mk rev.reverse)

/-- `re.sub(r'[,$%]', '', s)`. -/
def stripCurrencyChars (s : String) : String :=
  String.mk (s.toList.filter
    (fun c => !(c == ',' || c == '$' || c == '%')))

/-- `_safe_float` applied to `data_dict.get(k)` (where a missing key gives
Python `None`).  A Python `bool` is an `int`, hence coerces to 0/1;
containers fall through to `None`. -/
def safe_float (pyfloat : String → Option ℚ) : Option Jv → Option ℚ
  | Option.none => Option.none
  | some .jnull => Option.none
  | some (.jnum q) => some q
  | some (.jbool b) => some (if b then 1 else 0)
  | some (.jstr s) =>
    let clean := stripCurrencyChars s
    if clean.isEmpty then Option.none else pyfloat clean
  | some (.jarr _) => Option.none
  | some (.jobj _) => Option.none

/-- Python `int(float(x))`: truncation toward zero. -/
def intTrunc (q : ℚ) : ℤ := if 0 ≤ q then ⌊q⌋ else ⌈q⌉

/-- `_safe_int` applied to `data_dict.get(k)`.  An integral JSON number is
returned as is, any other number as `int(float(value))`; a string is fed
raw (uncleaned) to `float`. -/
def safe_int (pyfloat : String → Option ℚ) : Option Jv → Option ℚ
  | Option.none => Option.none
  | some .jnull => Option.none
  | some (.jnum q) => some ((intTrunc q : ℤ) : ℚ)
  | some (.jbool b) => some (if b then 1 else 0)
  | some (.jstr s) => (pyfloat s).map (fun q => ((intTrunc q : ℤ) : ℚ))
  | some (.jarr _) => Option.none
  | some (.jobj _) => Option.none

/-- A JSON string value, else absent.  (Python would store a value of any
type into the string-typed dataclass fields; values of unexpected JSON type
are modelled as absent, no modelled behaviour depends on them.) -/
def jvStr : Option Jv → Option String
  | some (.jstr s) => some s
  | _ => Option.none

/-- `value if isinstance(value, list) else None`, keeping string
elements. -/
def jvStrList : Option Jv → Option (List String)
  | some (.jarr l) =>
    some (l.filterMap (fun v => match v with
      | .jstr s => some s
      | _ => Option.none))
  | _ => Option.none

/-- `_calculate_extraction_confidence`: filled fraction over the 30
tracked fields, reported under both keys. -/
def calculate_extraction_confidence (d : ExtractedCompanyData) :
    List (String × ℚ) :=
  let total : ℕ := (fieldPresence d).length
  let filled : ℕ := (fieldPresence d).countP id
  [("overall", (filled : ℚ) / (total : ℚ)),
   ("completeness", (filled : ℚ) / (total : ℚ))]

/-- The deterministic fallback record of
`_extract_structured_data_with_gemini`. -/
def fallback_record (hint : Option String) : ExtractedCompanyData :=
  { emptyRecord with
    company_name := hint
    extraction_confidence := some [("overall", 1 / 10)] }

/-- Field population of the successfully decoded JSON object. -/
def build_record (pyfloat : String → Option ℚ)
    (dict : List (String × Jv)) : ExtractedCompanyData :=
  let g := fun k => dict.lookup k
  let rec0 : ExtractedCompanyData :=
    { company_name := jvStr (g "company_name")
      sector := jvStr (g "sector")
      stage := jvStr (g "stage")
      location := jvStr (g "location")
      founded_date := jvStr (g "founded_date")
      website := jvStr (g "website")
      description := jvStr (g "description")
      funding_request := safe_float pyfloat (g "funding_request")
      monthly_revenue := safe_float pyfloat (g "monthly_revenue")
      annual_revenue := safe_float pyfloat (g "annual_revenue")
      burn_rate := safe_float pyfloat (g "burn_rate")
      cash_balance := safe_float pyfloat (g "cash_balance")
      gross_margin := safe_float pyfloat (g "gross_margin")
      customers := safe_int pyfloat (g "customers")
      employees := safe_int pyfloat (g "employees")
      customer_acquisition_cost :=
        safe_float pyfloat (g "customer_acquisition_cost")
      lifetime_value := safe_float pyfloat (g "lifetime_value")
      retention_rate := safe_float pyfloat (g "retention_rate")
      growth_rate := safe_float pyfloat (g "growth_rate")
      founders := jvStrList (g "founders")
      key_team := jvStrList (g "key_team")
      competitive_advantages := jvStrList (g "competitive_advantages")
      target_market := jvStr (g "target_market")
      product_description := jvStr (g "product_description") }
  { rec0 with
    extraction_confidence := some (calculate_extraction_confidence rec0) }

/-- `_extract_structured_data_with_gemini`.  `resp` is the service
response; any failure on the way to a decoded dict (no response, no brace
span, a `json.loads` error, or a non-object result whose field access
raises) lands in the fallback.  The 12000-character truncation only shapes
the prompt text, which is not reconstructed. -/
def extract_structured_data_with_gemini (pyfloat : String → Option ℚ)
    (jloads : String → Option Jv) (resp : Option String)
    (_content : String) (hint : Option String) : ExtractedCompanyData :=
  match resp with
  | Option.none => fallback_record hint
  | some r =>
    match braceSpan r with
    | Option.none => fallback_record hint
    | some jtxt =>
      match jloads jtxt with
      | some (.jobj dict) => build_record pyfloat dict
      | _ => fallback_record hint

/-- `os.path.basename` (POSIX). -/
def basename (p : String) : String := (p.splitOn "/").getLastD ""

/-- `_extract_text_content_simple`: concatenate the readable, non-empty
documents with headers, or the fixed placeholder text. -/
def extract_text_content_simple (readDoc : String → Option String)
    (docs : List String) : String :=
  let parts := docs.filterMap (fun p =>
    match readDoc p with
    | some c =>
      if c.isEmpty then Option.none
      else some ("=== DOCUMENT: " ++ basename p ++ " ===\n" ++ c ++ "\n")
    | Option.none => Option.none)
  if parts.isEmpty then "No document content available"
  else "\n".intercalate parts

/-- `DocumentAnalysisRequest` (the `analysis_timestamp` default is
wall-clock noise and is omitted). -/
structure DocumentAnalysisRequest where
  company_name : Option String
  documents : List String
  additional_writeup : Option String
deriving Repr

/-- `extract_company_data` (its `try` body is total in the embedding). -/
def extract_company_data (readDoc : String → Option String)
    (pyfloat : String → Option ℚ) (jloads : String → Option Jv)
    (gemResp : Option String) (request : DocumentAnalysisRequest) :
    ExtractedCompanyData :=
  let c0 := extract_text_content_simple readDoc request.documents
  let all_content :=
    if truthyS request.additional_writeup then
      c0 ++ "\n\n=== ADDITIONAL INFORMATION ===\n" ++
        request.additional_writeup.getD ""
    else c0
  extract_structured_data_with_gemini pyfloat jloads gemResp all_content
    request.company_name

end Extraction

/-! ### Orchestrator (`DocumentDrivenOrchestrator`) -/

namespace Orchestrator

/-- Set `business_report["analysis_metadata"] = ...` on the report value. -/
def pvSetKey (v : PyVal) (k : String) (val : PyVal) : PyVal :=
  match v with
  | .obj l => .obj (dictSet l (k, val))
  | other => other

/-- `analyze_startup_from_documents`, the spec's `run_analysis`.  Each
external-service call site has its own response parameter; `finErr`,
`riskErr` and `mktErr` model whether a unit's `try` body raised; `now` and
`duration` are wall-clock readings.  The orchestrator-level `except` branch
is dead for every modelled input (the pipeline body is total). -/
def analyze_startup_from_documents (readDoc : String → Option String)
    (pyfloat : String → Option ℚ) (jloads : String → Option Extraction.Jv)
    (gemExtract finIns riskIns mktIns execResp recResp : Option String)
    (finErr riskErr mktErr : Option String) (now : String) (duration : ℚ)
    (request : Extraction.DocumentAnalysisRequest) : PyVal :=
  let extracted0 := Extraction.extract_company_data readDoc pyfloat jloads
    gemExtract request
  let extracted :=
    if truthyS extracted0.company_name then extracted0
    else { extracted0 with
      company_name := some (orStr request.company_name "Unknown Company") }
  let responses :=
    [Financial.analyze_extracted_data finErr finIns extracted,
     Risk.assess_risks_from_extracted_data riskErr riskIns extracted,
     Market.analyze_market_from_extracted_data mktErr mktIns extracted]
  let report := Report.generate_comprehensive_report execResp recResp now
    extracted responses
  pvSetKey report "analysis_metadata" (.obj [
    ("analysis_duration_seconds", .num (Report.round1 duration)),
    ("agents_processed", .num ((responses.length : ℚ) + 1)),
    ("documents_processed", .num (request.documents.length : ℚ)),
    ("analysis_type",
      .str "Document-Driven AI Analysis (Gemini API Only)")])

/-- Orchestrator state relevant to `get_system_health`: whether each
agent's generative model was initialised, plus the stored API key. -/
structure OrchestratorState where
  extraction_model : Bool
  financial_model : Bool
  risk_model : Bool
  market_model : Bool
  report_model : Bool
  gemini_api_key : String
deriving Repr

/-- Health report structure. -/
structure HealthStatus where
  status : String
  agents_status : List (String × String)
  google_services : List (String × String)
deriving Repr

/-- `get_system_health`.  The agents always exist and have the attribute,
so per-agent status is decided by model truthiness alone. -/
def get_system_health (o : OrchestratorState) : HealthStatus :=
  { status := "healthy"
    agents_status :=
      [("document_extraction",
        if o.extraction_model then "ready" else "error"),
       ("financial_analysis",
        if o.financial_model then "ready" else "error"),
       ("risk_assessment", if o.risk_model then "ready" else "error"),
       ("market_intelligence", if o.market_model then "ready" else "error"),
       ("business_report_generation",
        if o.report_model then "ready" else "error")]
    google_services :=
      if !o.gemini_api_key.isEmpty then
        [("gemini_api", "connected"), ("cloud_vision", "not_required")]
      else
        [("gemini_api", "no_api_key")] }

end Orchestrator

/-! ## Helper lemmas -/

@[simp]
theorem truthyQ_none : truthyQ Option.none = false := rfl

@[simp]
theorem truthyQ_some_zero : truthyQ (some 0) = false := by
  simp [truthyQ]

@[simp]
theorem truthyQ_some_one : truthyQ (some 1) = true := by
  simp [truthyQ]

theorem truthyQ_eq_true {o : Option ℚ} (h : truthyQ o = true) :
    ∃ x, o = some x ∧ x ≠ 0 := by
  cases o with
  | none => simp [truthyQ] at h
  | some x => exact ⟨x, rfl, by simpa [truthyQ] using h⟩

theorem lookup_append (k : String) (l1 l2 : List (String × ℚ)) :
    (l1 ++ l2).lookup k = (l1.lookup k).or (l2.lookup k) := by
  induction l1 with
  | nil => simp [List.lookup]
  | cons p t ih =>
    cases h : (k == p.1) with
    | true => simp [List.lookup, h]
    | false => simpa [List.lookup, h] using ih

theorem lookup_condEntry (b : Bool) (k : String) (v : ℚ) (k2 : String) :
    (Financial.condEntry b k v).lookup k2 =
      if (k2 == k) && b then some v else Option.none := by
  cases b <;> cases h : (k2 == k) <;>
    simp [Financial.condEntry, List.lookup, h]

/- `Rat.add/mul/inv/sub` are `@[irreducible]` in Batteries, which blocks
`decide`-style evaluation of closed rational computations; restore the
default reducibility inside this file (the kernel re-checks all proofs
independently of reducibility attributes). -/
attribute [local semireducible] Rat.add Rat.mul Rat.inv Rat.sub

/-! ## Claims -/

/-- C6: with `customer_acquisition_cost = 0` the financial metrics map has
no `ltv_cac_ratio` key; an `ltv_cac_ratio` entry only ever arises from a
strictly positive CAC (as `LTV / CAC`), and a `runway_months` entry only
from a strictly positive burn rate (as `cash_balance / burn_rate`), so the
divisions are guarded. -/
theorem division_guards (d : ExtractedCompanyData) :
    (d.customer_acquisition_cost = some 0 →
      (Financial.calculate_available_metrics d).lookup "ltv_cac_ratio" =
        Option.none) ∧
    (∀ q, (Financial.calculate_available_metrics d).lookup "ltv_cac_ratio" =
        some q →
      ∃ cac ltv, d.customer_acquisition_cost = some cac ∧
        d.lifetime_value = some ltv ∧ 0 < cac ∧ q = ltv / cac) ∧
    (∀ q, (Financial.calculate_available_metrics d).lookup "runway_months" =
        some q →
      ∃ cash burn, d.cash_balance = some cash ∧ d.burn_rate = some burn ∧
        0 < burn ∧ q = cash / burn) := by
  refine ⟨?_, ?_, ?_⟩
  · intro h
    simp [Financial.calculate_available_metrics, lookup_append,
      lookup_condEntry, h]
  · intro q h
    simp only [Financial.calculate_available_metrics, lookup_append,
      lookup_condEntry] at h
    simp at h
    obtain ⟨⟨⟨hcac, hltv⟩, hpos⟩, hq⟩ := h
    obtain ⟨cac, hc1, _⟩ := truthyQ_eq_true hcac
    obtain ⟨ltv, hl1, _⟩ := truthyQ_eq_true hltv
    refine ⟨cac, ltv, hc1, hl1, by simpa [hc1] using hpos, ?_⟩
    simp [hc1, hl1] at hq
    exact hq.symm
  · intro q h
    simp only [Financial.calculate_available_metrics, lookup_append,
      lookup_condEntry] at h
    simp at h
    obtain ⟨⟨⟨hcash, hburn⟩, hpos⟩, hq⟩ := h
    obtain ⟨cash, hc1, _⟩ := truthyQ_eq_true hcash
    obtain ⟨burn, hb1, _⟩ := truthyQ_eq_true hburn
    refine ⟨cash, burn, hc1, hb1, by simpa [hb1] using hpos, ?_⟩
    simp [hc1, hb1] at hq
    exact hq.symm

/-- A record exercising both division guards: a zero CAC and a positive
runway. -/
def c6_record : ExtractedCompanyData :=
  { emptyRecord with
    customer_acquisition_cost := some 0
    lifetime_value := some 5000
    cash_balance := some 300000
    burn_rate := some 100000 }

/-- Witness for `division_guards` at a concrete record. -/
theorem division_guards_witness :
    (Financial.calculate_available_metrics c6_record).lookup "ltv_cac_ratio" =
      Option.none ∧
    (∃ cash burn, c6_record.cash_balance = some cash ∧
      c6_record.burn_rate = some burn ∧ 0 < burn ∧ (3 : ℚ) = cash / burn) :=
  ⟨(division_guards c6_record).1 rfl,
   (division_guards c6_record).2.2 3 (by decide)⟩

/-- C7: with the generative service unavailable the structured-extraction
decoder ignores the document text entirely and returns the fixed fallback
record (name hint only, extraction confidence the single low constant 0.1);
in particular two runs on identical — or even different — inputs return
identical records, and no error is propagated. -/
theorem extraction_fallback_deterministic (pyfloat : String → Option ℚ)
    (jloads : String → Option Extraction.Jv) (content : String)
    (hint : Option String) :
    Extraction.extract_structured_data_with_gemini pyfloat jloads
        Option.none content hint = Extraction.fallback_record hint ∧
    Extraction.fallback_record hint =
      { emptyRecord with
        company_name := hint
        extraction_confidence := some [("overall", 1 / 10)] } :=
  ⟨rfl, rfl⟩

/-- C1 (amended): a unit whose `process` body raises returns a degraded
response — confidence at most 0.3 (0.2 / 0.3 / 0.2), an empty analysis map
(the risk unit's fixed `error_risk` placeholder), and exactly one flag
describing the failure; the flag's severity token is CRITICAL for the
financial and risk units but HIGH for the market unit.  No exception
escapes: the functions are total. -/
theorem unit_failure_containment (msg : String)
    (insF insR insM : Option String) (d : ExtractedCompanyData) :
    (Financial.analyze_extracted_data (some msg) insF d).confidence_score ≤
        3 / 10 ∧
    (Financial.analyze_extracted_data (some msg) insF d).analysis = [] ∧
    (Financial.analyze_extracted_data (some msg) insF d).flags =
      ["CRITICAL: Financial analysis error - " ++ msg] ∧
    (Risk.assess_risks_from_extracted_data (some msg) insR d).confidence_score ≤
        3 / 10 ∧
    (Risk.assess_risks_from_extracted_data (some msg) insR d).analysis =
      [("error_risk", PyVal.num 100)] ∧
    (Risk.assess_risks_from_extracted_data (some msg) insR d).flags =
      ["CRITICAL: Risk assessment error - " ++ msg] ∧
    (Market.analyze_market_from_extracted_data (some msg) insM d).confidence_score ≤
        3 / 10 ∧
    (Market.analyze_market_from_extracted_data (some msg) insM d).analysis = [] ∧
    (Market.analyze_market_from_extracted_data (some msg) insM d).flags =
      ["HIGH: Market analysis error - " ++ msg] := by
  refine ⟨by norm_num [Financial.analyze_extracted_data,
      Financial.create_error_response], rfl, rfl,
    by norm_num [Risk.assess_risks_from_extracted_data,
      Risk.create_error_response], rfl, rfl,
    by norm_num [Market.analyze_market_from_extracted_data,
      Market.create_error_response], rfl, rfl⟩

/-- Counterexample to C1 as stated: the market unit's degraded response has
exactly one flag, and that flag does not carry the CRITICAL severity token
(it is a HIGH flag). -/
theorem market_error_flag_severity_cex :
    (Market.analyze_market_from_extracted_data (some "boom") Option.none
        emptyRecord).flags.length = 1 ∧
    (Market.analyze_market_from_extracted_data (some "boom") Option.none
        emptyRecord).flags.countP (fun f => flagHas "CRITICAL" f) = 0 := by
  decide

/-- C10: the top-level health status is the constant "healthy" regardless
of the per-agent states; each agent's entry is "ready" exactly when its
generative model was initialised, otherwise "error". -/
theorem system_health_top_level (o : Orchestrator.OrchestratorState) :
    (Orchestrator.get_system_health o).status = "healthy" ∧
    ((Orchestrator.get_system_health o).agents_status.lookup
        "document_extraction" =
      some (if o.extraction_model then "ready" else "error")) ∧
    ((Orchestrator.get_system_health o).agents_status.lookup
        "financial_analysis" =
      some (if o.financial_model then "ready" else "error")) ∧
    ((Orchestrator.get_system_health o).agents_status.lookup
        "risk_assessment" =
      some (if o.risk_model then "ready" else "error")) ∧
    ((Orchestrator.get_system_health o).agents_status.lookup
        "market_intelligence" =
      some (if o.market_model then "ready" else "error")) ∧
    ((Orchestrator.get_system_health o).agents_status.lookup
        "business_report_generation" =
      some (if o.report_model then "ready" else "error")) := by
  refine ⟨rfl, ?_, ?_, ?_, ?_, ?_⟩ <;>
    simp [Orchestrator.get_system_health, List.lookup]

/-- Witness for `system_health_top_level`: the all-failed orchestrator
still reports "healthy" at the top level while every agent entry is
"error". -/
theorem system_health_witness :
    (Orchestrator.get_system_health
        { extraction_model := false, financial_model := false,
          risk_model := false, market_model := false, report_model := false,
          gemini_api_key := "" }).status = "healthy" ∧
    (Orchestrator.get_system_health
        { extraction_model := false, financial_model := false,
          risk_model := false, market_model := false, report_model := false,
          gemini_api_key := "" }).agents_status.lookup "financial_analysis" =
      some "error" := by
  have h := system_health_top_level
    { extraction_model := false, financial_model := false,
      risk_model := false, market_model := false, report_model := false,
      gemini_api_key := "" }
  exact ⟨h.1, h.2.2.1⟩

/-! ### C2: the aggregation formula -/

/-- Claim-side definition, following the claim's words: each response
contributes `max(confidence×100 − 25×criticals − 10×highs, 0)`, weighted by
the per-agent-name weight table, and the accumulated sum is divided by the
total weight actually applied. -/
def spec_unit_contribution (r : AgentResponse) : ℚ :=
  max (r.confidence_score * 100 -
    25 * (r.flags.countP (fun f => flagHas "CRITICAL" f) : ℚ) -
    10 * (r.flags.countP (fun f => flagHas "HIGH" f) : ℚ)) 0

/-- Claim-side weighted mean (see `spec_unit_contribution`). -/
def spec_weighted_mean (rs : List AgentResponse) : ℚ :=
  (rs.map (fun r =>
    Report.agent_weights r.agent_name * spec_unit_contribution r)).sum /
  (rs.map (fun r => Report.agent_weights r.agent_name)).sum

theorem agent_score_eq_spec (r : AgentResponse) :
    Report.agent_score r = spec_unit_contribution r := by
  unfold Report.agent_score spec_unit_contribution
  congr 1
  ring

theorem foldl_score_step (rs : List AgentResponse) (a b : ℚ) :
    rs.foldl Report.score_step (a, b) =
      (a + (rs.map (fun r =>
        Report.agent_weights r.agent_name * spec_unit_contribution r)).sum,
       b + (rs.map (fun r => Report.agent_weights r.agent_name)).sum) := by
  induction rs generalizing a b with
  | nil => simp
  | cons r t ih =>
    simp only [List.foldl_cons, List.map_cons, List.sum_cons,
      Report.score_step, ih, agent_score_eq_spec]
    rw [Prod.mk.injEq]
    constructor <;> ring

theorem agent_weights_pos (n : String) : 0 < Report.agent_weights n := by
  unfold Report.agent_weights
  split_ifs <;> norm_num

theorem weights_sum_pos (r : AgentResponse) (t : List AgentResponse) :
    0 < ((r :: t).map
      (fun x => Report.agent_weights x.agent_name)).sum := by
  apply List.sum_pos
  · intro x hx
    simp only [List.mem_map] at hx
    obtain ⟨y, _, rfl⟩ := hx
    exact agent_weights_pos _
  · simp

/-- A bare unit result used for concrete instances (no findings, metrics or
recommendations; only a name, a confidence and flags). -/
def mkResp (name : String) (c : ℚ) (fl : List String) : AgentResponse :=
  { agent_name := name, confidence_score := c, findings := [],
    analysis := [], recommendations := [], flags := fl,
    data_completeness := 0 }

/-- C2 (amended): for every non-empty response list the aggregator's score
equals the claim's weighted mean — contributions clamped at 0, weighted by
the per-agent-name table, divided by the total weight actually applied —
after clamping the mean to [0, 100] and rounding it to one decimal place. -/
theorem overall_score_weighted_mean_amended (rs : List AgentResponse)
    (h : rs ≠ []) :
    Report.calculate_overall_investment_score rs =
      Report.round1 (min (max (spec_weighted_mean rs) 0) 100) := by
  obtain ⟨r, t, rfl⟩ := List.exists_cons_of_ne_nil h
  unfold Report.calculate_overall_investment_score
  rw [if_neg (by simp)]
  simp only [foldl_score_step, zero_add]
  rw [if_pos (weights_sum_pos r t)]
  rfl

/-- Witness for `overall_score_weighted_mean_amended` at a one-element
list. -/
theorem overall_score_weighted_mean_witness :
    Report.calculate_overall_investment_score
        [mkResp "Financial Analysis Agent" (1 / 2) []] =
      Report.round1 (min (max (spec_weighted_mean
        [mkResp "Financial Analysis Agent" (1 / 2) []]) 0) 100) :=
  overall_score_weighted_mean_amended _ (by simp)

/-- Counterexample to C2 as stated: the aggregator's score is the weighted
mean only up to rounding.  For a financial response of confidence 0.125 and
a risk response of confidence 0.25 (no flags) the weighted mean is
200/11 = 18.1818…, while the code returns 18.2. -/
theorem overall_score_rounding_cex :
    Report.calculate_overall_investment_score
        [mkResp "Financial Analysis Agent" (1 / 8) [],
         mkResp "Risk Assessment Agent" (1 / 4) []] = 91 / 5 ∧
    spec_weighted_mean
        [mkResp "Financial Analysis Agent" (1 / 8) [],
         mkResp "Risk Assessment Agent" (1 / 4) []] = 200 / 11 ∧
    (91 : ℚ) / 5 ≠ 200 / 11 := by
  refine ⟨by decide, by decide, by norm_num⟩

/-! ### C3: report structural completeness and score range -/

theorem round1_bounds {x : ℚ} (h0 : 0 ≤ x) (h1 : x ≤ 100) :
    0 ≤ Report.round1 x ∧ Report.round1 x ≤ 100 := by
  unfold Report.round1
  have r0 : (0 : ℤ) ≤ round (10 * x) := by
    rw [round_eq]
    apply Int.le_floor.2
    push_cast
    linarith
  have r1 : round (10 * x) ≤ 1000 := by
    rw [round_eq]
    have : (⌊10 * x + 1 / 2⌋ : ℤ) < 1001 := by
      apply Int.floor_lt.2
      push_cast
      linarith
    omega
  have r0q : (0 : ℚ) ≤ ((round (10 * x) : ℤ) : ℚ) := by exact_mod_cast r0
  have r1q : ((round (10 * x) : ℤ) : ℚ) ≤ 1000 := by exact_mod_cast r1
  constructor
  · positivity
  · rw [div_le_iff₀ (by norm_num)]
    linarith

theorem score_range (rs : List AgentResponse) :
    0 ≤ Report.calculate_overall_investment_score rs ∧
      Report.calculate_overall_investment_score rs ≤ 100 := by
  unfold Report.calculate_overall_investment_score
  split_ifs with h
  · norm_num
  · apply round1_bounds
    · exact le_min (le_max_right _ 0) (by norm_num)
    · exact min_le_right _ 100

/-- C3: for every record and every list of unit results (including the
empty list) the synthesis aggregator's report has exactly the documented
top-level keys, its overall score lies in [0, 100], and a missing unit
degrades its section to the placeholder text, never to a missing key. -/
theorem report_structure_invariant (d : ExtractedCompanyData)
    (rs : List AgentResponse) (execResp recResp : Option String)
    (now : String) :
    Report.topKeys
        (Report.generate_comprehensive_report execResp recResp now d rs) =
      Report.documented_report_keys ∧
    0 ≤ Report.calculate_overall_investment_score rs ∧
    Report.calculate_overall_investment_score rs ≤ 100 ∧
    (Report.find_response "Financial" rs = Option.none →
      Report.fin_summary_entry rs =
        .arr [.str "Financial analysis not available"]) ∧
    (Report.find_response "Market" rs = Option.none →
      Report.market_insights_entry rs =
        .arr [.str "Market analysis not available"]) ∧
    (Report.find_response "Risk" rs = Option.none →
      Report.risk_summary_entry rs =
        .arr [.str "Risk analysis not available"]) := by
  refine ⟨rfl, (score_range rs).1, (score_range rs).2, ?_, ?_, ?_⟩
  · intro h
    simp [Report.fin_summary_entry, h]
  · intro h
    simp [Report.market_insights_entry, h]
  · intro h
    simp [Report.risk_summary_entry, h]

/-- Witness for `report_structure_invariant`: the empty result list (every
unit missing) still yields a fully keyed report with an in-range score and
the placeholder sections. -/
theorem report_structure_invariant_witness :
    Report.topKeys (Report.generate_comprehensive_report Option.none
        Option.none "" emptyRecord []) = Report.documented_report_keys ∧
    0 ≤ Report.calculate_overall_investment_score [] ∧
    Report.calculate_overall_investment_score [] ≤ 100 ∧
    Report.fin_summary_entry [] =
      .arr [.str "Financial analysis not available"] ∧
    Report.market_insights_entry [] =
      .arr [.str "Market analysis not available"] ∧
    Report.risk_summary_entry [] =
      .arr [.str "Risk analysis not available"] := by
  have h := report_structure_invariant emptyRecord [] Option.none
    Option.none ""
  exact ⟨h.1, h.2.1, h.2.2.1, h.2.2.2.1 rfl, h.2.2.2.2.1 rfl,
    h.2.2.2.2.2 rfl⟩

/-! ### C9: a stored 0 is treated as absent by metrics and flags, but as
present by the completeness score -/

theorem no_runway_flags_of_lookup_none (d : ExtractedCompanyData)
    (h : (Financial.calculate_available_metrics d).lookup "runway_months" =
      Option.none) :
    "CRITICAL: Less than 6 months runway" ∉
        Financial.detect_financial_flags d
          (Financial.calculate_available_metrics d) ∧
      "HIGH: Limited runway - funding needed soon" ∉
        Financial.detect_financial_flags d
          (Financial.calculate_available_metrics d) := by
  unfold Financial.detect_financial_flags
  rw [h]
  constructor <;>
    · simp only [truthyQ_none, Bool.false_and, if_false, List.nil_append,
        Bool.false_eq_true]
      split_ifs <;> simp

/-- C9: a financial field stored as exactly 0 is conflated with absence by
the metric computation (no metric key, no derived run-rate / runway /
LTV-CAC, no runway flags) while the completeness score still counts it as
present, because completeness tests only `is not None` (replacing the 0 by
1 leaves completeness unchanged). -/
theorem zero_value_conflation (d : ExtractedCompanyData) :
    (d.monthly_revenue = some 0 →
      (Financial.calculate_available_metrics d).lookup "monthly_revenue" =
        Option.none ∧
      (Financial.calculate_available_metrics d).lookup "annual_run_rate" =
        Option.none ∧
      Financial.calculate_financial_completeness d =
        Financial.calculate_financial_completeness
          { d with monthly_revenue := some 1 }) ∧
    (d.burn_rate = some 0 →
      (Financial.calculate_available_metrics d).lookup "burn_rate" =
        Option.none ∧
      (Financial.calculate_available_metrics d).lookup "runway_months" =
        Option.none ∧
      "CRITICAL: Less than 6 months runway" ∉
        Financial.detect_financial_flags d
          (Financial.calculate_available_metrics d) ∧
      "HIGH: Limited runway - funding needed soon" ∉
        Financial.detect_financial_flags d
          (Financial.calculate_available_metrics d) ∧
      Financial.calculate_financial_completeness d =
        Financial.calculate_financial_completeness
          { d with burn_rate := some 1 }) ∧
    (d.cash_balance = some 0 →
      (Financial.calculate_available_metrics d).lookup "cash_balance" =
        Option.none ∧
      (Financial.calculate_available_metrics d).lookup "runway_months" =
        Option.none ∧
      Financial.calculate_financial_completeness d =
        Financial.calculate_financial_completeness
          { d with cash_balance := some 1 }) ∧
    (d.gross_margin = some 0 →
      (Financial.calculate_available_metrics d).lookup "gross_margin" =
        Option.none ∧
      Financial.calculate_financial_completeness d =
        Financial.calculate_financial_completeness
          { d with gross_margin := some 1 }) ∧
    (d.lifetime_value = some 0 →
      (Financial.calculate_available_metrics d).lookup "ltv_cac_ratio" =
        Option.none ∧
      Financial.calculate_financial_completeness d =
        Financial.calculate_financial_completeness
          { d with lifetime_value := some 1 }) ∧
    (d.customers = some 0 →
      (Financial.calculate_available_metrics d).lookup "customer_count" =
        Option.none ∧
      Financial.calculate_financial_completeness d =
        Financial.calculate_financial_completeness
          { d with customers := some 1 }) ∧
    (d.employees = some 0 →
      (Financial.calculate_available_metrics d).lookup "employee_count" =
        Option.none ∧
      Financial.calculate_financial_completeness d =
        Financial.calculate_financial_completeness
          { d with employees := some 1 }) := by
  refine ⟨?_, ?_, ?_, ?_, ?_, ?_, ?_⟩
  · intro h
    refine ⟨?_, ?_, ?_⟩ <;>
      simp [Financial.calculate_available_metrics, lookup_append,
        lookup_condEntry, Financial.calculate_financial_completeness, h]
  · intro h
    have hrw : (Financial.calculate_available_metrics d).lookup
        "runway_months" = Option.none := by
      simp [Financial.calculate_available_metrics, lookup_append,
        lookup_condEntry, h]
    obtain ⟨hf1, hf2⟩ := no_runway_flags_of_lookup_none d hrw
    refine ⟨?_, hrw, hf1, hf2, ?_⟩ <;>
      simp [Financial.calculate_available_metrics, lookup_append,
        lookup_condEntry, Financial.calculate_financial_completeness, h]
  · intro h
    refine ⟨?_, ?_, ?_⟩ <;>
      simp [Financial.calculate_available_metrics, lookup_append,
        lookup_condEntry, Financial.calculate_financial_completeness, h]
  · intro h
    refine ⟨?_, ?_⟩ <;>
      simp [Financial.calculate_available_metrics, lookup_append,
        lookup_condEntry, Financial.calculate_financial_completeness, h]
  · intro h
    refine ⟨?_, ?_⟩ <;>
      simp [Financial.calculate_available_metrics, lookup_append,
        lookup_condEntry, Financial.calculate_financial_completeness, h]
  · intro h
    refine ⟨?_, ?_⟩ <;>
      simp [Financial.calculate_available_metrics, lookup_append,
        lookup_condEntry, Financial.calculate_financial_completeness, h]
  · intro h
    refine ⟨?_, ?_⟩ <;>
      simp [Financial.calculate_available_metrics, lookup_append,
        lookup_condEntry, Financial.calculate_financial_completeness, h]

/-- The record with every key financial field stored as exactly 0. -/
def all_zero_record : ExtractedCompanyData :=
  { emptyRecord with
    monthly_revenue := some 0, burn_rate := some 0, cash_balance := some 0,
    gross_margin := some 0, lifetime_value := some 0, customers := some 0,
    employees := some 0 }

/-- Witness for `zero_value_conflation` at the all-zero record. -/
theorem zero_value_conflation_witness :
    ((Financial.calculate_available_metrics all_zero_record).lookup
        "monthly_revenue" = Option.none ∧
      (Financial.calculate_available_metrics all_zero_record).lookup
        "annual_run_rate" = Option.none ∧
      Financial.calculate_financial_completeness all_zero_record =
        Financial.calculate_financial_completeness
          { all_zero_record with monthly_revenue := some 1 }) ∧
    ((Financial.calculate_available_metrics all_zero_record).lookup
        "burn_rate" = Option.none ∧
      (Financial.calculate_available_metrics all_zero_record).lookup
        "runway_months" = Option.none ∧
      "CRITICAL: Less than 6 months runway" ∉
        Financial.detect_financial_flags all_zero_record
          (Financial.calculate_available_metrics all_zero_record) ∧
      "HIGH: Limited runway - funding needed soon" ∉
        Financial.detect_financial_flags all_zero_record
          (Financial.calculate_available_metrics all_zero_record) ∧
      Financial.calculate_financial_completeness all_zero_record =
        Financial.calculate_financial_completeness
          { all_zero_record with burn_rate := some 1 }) ∧
    ((Financial.calculate_available_metrics all_zero_record).lookup
        "ltv_cac_ratio" = Option.none ∧
      Financial.calculate_financial_completeness all_zero_record =
        Financial.calculate_financial_completeness
          { all_zero_record with lifetime_value := some 1 }) := by
  have h := zero_value_conflation all_zero_record
  exact ⟨h.1 rfl, h.2.1 rfl, h.2.2.2.2.1 rfl⟩

/-! ### C8: the investment-recommendation thresholds -/

/-- C8 (amended): the service-less fallback recommendation is a function of
fixed thresholds over (CRITICAL-flag count, HIGH-flag count, average
confidence) — not of the overall score: any CRITICAL flag forces the DO NOT
RECOMMEND tier (hence a 40-score report with one CRITICAL flag gets it);
with no CRITICAL flags, at most three HIGH flags and average confidence
above 0.7 it is the RECOMMEND tier. -/
theorem recommendation_fallback_amended (rs rs2 : List AgentResponse) :
    (0 < Report.count_flags rs "CRITICAL" →
      Report.generate_investment_recommendation Option.none rs =
        "DO NOT RECOMMEND: Critical risk factors pose significant threats to investment success.") ∧
    (Report.count_flags rs "CRITICAL" = 0 →
      Report.count_flags rs "HIGH" ≤ 3 →
      7 / 10 < Report.avg_confidence rs →
      Report.generate_investment_recommendation Option.none rs =
        "RECOMMEND: Analysis indicates positive investment opportunity with manageable risks.") ∧
    (Report.count_flags rs "CRITICAL" = Report.count_flags rs2 "CRITICAL" →
      Report.count_flags rs "HIGH" = Report.count_flags rs2 "HIGH" →
      Report.avg_confidence rs = Report.avg_confidence rs2 →
      Report.fallback_recommendation rs =
        Report.fallback_recommendation rs2) := by
  refine ⟨?_, ?_, ?_⟩
  · intro h
    simp [Report.generate_investment_recommendation,
      Report.fallback_recommendation, h]
  · intro h1 h2 h3
    simp [Report.generate_investment_recommendation,
      Report.fallback_recommendation, h1, h3, Nat.not_lt.2 h2]
  · intro h1 h2 h3
    unfold Report.fallback_recommendation
    rw [h1, h2, h3]

/-- Witness for `recommendation_fallback_amended`: a single CRITICAL flag
forces DO NOT RECOMMEND, and a flag-free high-confidence list gets
RECOMMEND. -/
theorem recommendation_fallback_witness :
    Report.generate_investment_recommendation Option.none
        [mkResp "Risk Assessment Agent" (1 / 2)
          ["CRITICAL: Less than 3 months runway"]] =
      "DO NOT RECOMMEND: Critical risk factors pose significant threats to investment success." ∧
    Report.generate_investment_recommendation Option.none
        [mkResp "Financial Analysis Agent" (9 / 10) []] =
      "RECOMMEND: Analysis indicates positive investment opportunity with manageable risks." ∧
    Report.fallback_recommendation [] = Report.fallback_recommendation [] :=
  ⟨(recommendation_fallback_amended _ []).1 (by decide),
   (recommendation_fallback_amended _ []).2.1 (by decide) (by decide)
     (by norm_num [Report.avg_confidence, mkResp]),
   (recommendation_fallback_amended [] []).2.2 rfl rfl rfl⟩

/-- The C8 counterexample responses: overall score exactly 85, no CRITICAL
flag, but four HIGH flags. -/
def c8_responses : List AgentResponse :=
  [mkResp "Financial Analysis Agent" (14 / 15) [],
   mkResp "Risk Assessment Agent" 1
     ["HIGH: No revenue disclosed at advanced stage",
      "HIGH: Overall risk above investment threshold",
      "HIGH: Limited runway - funding needed soon",
      "HIGH: Very small customer base for funding stage"],
   mkResp "Market Intelligence Agent" 1 []]

/-- Counterexample to C8 as stated: an overall score of 85 with zero
CRITICAL flags does not land in the RECOMMEND tier — these responses score
exactly 85 with no CRITICAL flag, yet the fallback recommendation is the
CONSIDER WITH CAUTION tier (the rule reads the HIGH-flag count and the
average confidence, never the overall score). -/
theorem recommendation_not_function_of_score_cex :
    Report.calculate_overall_investment_score c8_responses = 85 ∧
    Report.count_flags c8_responses "CRITICAL" = 0 ∧
    Report.generate_investment_recommendation Option.none c8_responses =
      "CONSIDER WITH CAUTION: Multiple high-priority risks require comprehensive due diligence." ∧
    strContains (Report.generate_investment_recommendation Option.none
      c8_responses) "RECOMMEND" = false := by
  refine ⟨by decide, by decide, by decide, by decide⟩

/-! ### C5: the runway-at-exactly-3.0-months flag -/

/-- The C5 record: `cash_balance = 300000`, `burn_rate = 100000`. -/
def c5_record : ExtractedCompanyData :=
  { emptyRecord with cash_balance := some 300000, burn_rate := some 100000 }

/-- All flags produced by the three analysis units on `c5_record`
(services unavailable, no internal failure). -/
def c5_all_flags : List String :=
  (Financial.analyze_extracted_data Option.none Option.none c5_record).flags ++
  (Risk.assess_risks_from_extracted_data Option.none Option.none
    c5_record).flags ++
  (Market.analyze_market_from_extracted_data Option.none Option.none
    c5_record).flags

/-- Counterexample to C5 as stated: the pipeline does compute
`runway_months = 3.0`, but no unit emits "CRITICAL: Less than 3 months
runway" — the risk unit's guard is strict (`runway < 3`), and 3.0 is not
less than 3. -/
theorem runway_three_months_flag_cex :
    (Financial.calculate_available_metrics c5_record).lookup
      "runway_months" = some 3 ∧
    "CRITICAL: Less than 3 months runway" ∉ c5_all_flags := by
  refine ⟨by decide, by decide⟩

/-- C5 (amended): at `cash_balance = 300000, burn_rate = 100000` the
runway is 3.0 months and the financial unit flags "CRITICAL: Less than 6
months runway"; the "Less than 3 months" flag requires a runway strictly
below 3 (for example `cash_balance = 299999`). -/
theorem runway_three_months_amended :
    (Financial.calculate_available_metrics c5_record).lookup
      "runway_months" = some 3 ∧
    "CRITICAL: Less than 6 months runway" ∈ c5_all_flags ∧
    "CRITICAL: Less than 3 months runway" ∈
      (Risk.assess_risks_from_extracted_data Option.none Option.none
        { emptyRecord with
          cash_balance := some 299999
          burn_rate := some 100000 }).flags := by
  refine ⟨by decide, by decide, by decide⟩

/-! ### C4: the end-to-end empty run -/

/-- Read the executive summary's overall score out of a report value. -/
def report_overall_score (rep : PyVal) : Option ℚ :=
  match pvObjLookup rep "executive_summary" with
  | some es =>
    match pvObjLookup es "overall_score" with
    | some (.num q) => some q
    | _ => Option.none
  | _ => Option.none

/-- Read the executive summary's critical concerns out of a report value. -/
def report_critical_concerns (rep : PyVal) : List String :=
  match pvObjLookup rep "executive_summary" with
  | some es =>
    match pvObjLookup es "critical_concerns" with
    | some (.arr l) =>
      l.filterMap (fun v => match v with
        | .str s => some s
        | _ => Option.none)
    | _ => []
  | _ => []

/-- The end-to-end run on an empty document set with every external
service unavailable: no file is readable, every generative call yields no
response, no unit body raises.  The pipeline is a total function — no
exception reaches the caller. -/
def c4_report : PyVal :=
  Orchestrator.analyze_startup_from_documents
    (fun _ => Option.none) (fun _ => Option.none) (fun _ => Option.none)
    Option.none Option.none Option.none Option.none Option.none Option.none
    Option.none Option.none Option.none "" 0
    { company_name := Option.none, documents := [],
      additional_writeup := Option.none }

/-- Counterexample to C4 as stated: the empty-documents, no-service run
produces an overall score of 57.8, which does not lie in [0, 20].  (The
units fall back to their baseline confidences 0.5 / 0.6 / 0.65 and raise
almost no flags, so the weighted mean stays high.) -/
theorem empty_run_score_cex :
    report_overall_score c4_report = some (289 / 5) ∧
    ¬ ((289 : ℚ) / 5 ≤ 20) := by
  refine ⟨by decide, by norm_num⟩

/-- C4 (amended): the empty-documents, no-service run raises no exception
and returns a structurally complete report whose overall score is 57.8
(within [0, 100], not 0–20) and whose critical-concerns list is the
non-empty fallback list. -/
theorem empty_run_report_amended :
    report_overall_score c4_report = some (289 / 5) ∧
    (0 : ℚ) ≤ 289 / 5 ∧ (289 : ℚ) / 5 ≤ 100 ∧
    report_critical_concerns c4_report =
      ["Comprehensive due diligence required"] ∧
    Report.topKeys c4_report =
      Report.documented_report_keys ++ ["analysis_metadata"] := by
  refine ⟨by decide, by norm_num, by norm_num, by decide, by decide⟩

end StartupAnalyst
